import Mathlib

/-!
Shallow embedding of the `state-machine` repository: a node-bootstrap
workflow (discover peers, connect, elect a leader, run as leader or
follower) executed by four interchangeable strategy engines:

* `InternalEnum`  — closed-set enum dispatch (`src/internal_enum.rs`)
* `DynTrait`      — open-set dynamic dispatch (`src/dyn_trait.rs`)
* `ComposeTrait`  — composable chain of typed stages (`src/compose_trait.rs`)
* `ExternalEnum`  — externally event-driven transitions (`src/external_enum.rs`)

Shared collaborator stubs live in `src/lib.rs`.  Conventions of the
embedding: Rust `Result<T, Box<dyn Error>>` becomes `Except EngineError T`
(or a generic error type where the Rust code is generic); a Rust
`unreachable!()` panic is embedded as the failure `EngineError.LogicError`
(the spec calls invoking an operation on a terminal state a `LogicError`);
the mpsc event channel of the event-driven engine becomes a `List` of
events, the empty list marking the closed channel; executor loops are
given explicit fuel, `none` meaning the fuel ran out (which the theorems
show never happens on the machines of this repository).
-/

/-- Opaque network address (`std::net::IpAddr`); the program never inspects
addresses, so the payload is an arbitrary tag. -/
structure IpAddr where
  val : Nat
deriving DecidableEq, Repr

/-- `NodeConnection` from `src/lib.rs`: owns only the address it was created
from. -/
structure NodeConnection where
  _addr : IpAddr
deriving DecidableEq, Repr

/-- `NodeConnection::connect` from `src/lib.rs`. -/
def NodeConnection.connect (addr : IpAddr) : NodeConnection :=
  { _addr := addr }

/-- `get_service_nodes` from `src/lib.rs`: the discovery stub returns the
empty vector. -/
def get_service_nodes : List IpAddr := []

/-- `connect_to_nodes` from `src/lib.rs`: the loop pushes one connection per
input address, in order. -/
def connect_to_nodes : List IpAddr → List NodeConnection
  | [] => []
  | node :: rest => NodeConnection.connect node :: connect_to_nodes rest

/-- Error taxonomy of the engines.  `LogicError` embeds the
`unreachable!()` panic taken when an operation runs on the `Terminate`
variant; `CollaboratorError` stands for an opaque boxed failure from a
collaborator (never produced by the stubs in this repository). -/
inductive EngineError where
  | LogicError
  | CollaboratorError
deriving DecidableEq, Repr

/-- Tags naming the workflow phases, used to record the sequence of live
phases an engine visits. -/
inductive PhaseTag where
  | DiscoverNodes
  | ConnectNodes
  | Consensus
  | Leader
  | Follower
  | Terminate
deriving DecidableEq, Repr

namespace InternalEnum

/-- `FullStateMachine` from `src/internal_enum.rs`: the closed set of
phases, each variant holding the data of its phase struct. -/
inductive FullStateMachine where
  | DiscoverNodes
  | ConnectNodes (nodes : List IpAddr)
  | Consensus (connections : List NodeConnection)
  | Leader (connections : List NodeConnection)
  | Follower (connections : List NodeConnection)
  | Terminate
deriving DecidableEq, Repr

/-- `DiscoverNodes::execute` from `src/internal_enum.rs`. -/
def DiscoverNodes.execute : List IpAddr :=
  get_service_nodes

/-- `ConnectNodes::execute` from `src/internal_enum.rs`. -/
def ConnectNodes.execute (nodes : List IpAddr) : List NodeConnection :=
  connect_to_nodes nodes

/-- `Consensus::execute` from `src/internal_enum.rs`: the stub always
decides leadership `true` and hands its connection list onward. -/
def Consensus.execute (connections : List NodeConnection) :
    Bool × List NodeConnection :=
  (true, connections)

/-- `InternallyDrivenTransition::execute` for `FullStateMachine`
(`src/internal_enum.rs`, lines 44-83).  The `Terminate` arm is
`unreachable!()` in the source, embedded here as a `LogicError` failure. -/
def FullStateMachine.execute :
    FullStateMachine → Except EngineError FullStateMachine
  | .DiscoverNodes =>
      let nodes := DiscoverNodes.execute
      .ok (.ConnectNodes nodes)
  | .ConnectNodes nodes =>
      let connections := ConnectNodes.execute nodes
      .ok (.Consensus connections)
  | .Consensus connections =>
      let r := Consensus.execute connections
      if r.1 then .ok (.Leader r.2) else .ok (.Follower r.2)
  | .Leader _ => .ok .Terminate
  | .Follower _ => .ok .Terminate
  | .Terminate => .error .LogicError

/-- `is_terminal_state` for `FullStateMachine`: true only on `Terminate`. -/
def FullStateMachine.is_terminal_state : FullStateMachine → Bool
  | .Terminate => true
  | _ => false

/-- Tag of the live variant, for traces. -/
def FullStateMachine.tag : FullStateMachine → PhaseTag
  | .DiscoverNodes => .DiscoverNodes
  | .ConnectNodes _ => .ConnectNodes
  | .Consensus _ => .Consensus
  | .Leader _ => .Leader
  | .Follower _ => .Follower
  | .Terminate => .Terminate

/-- Position of each variant in the fixed phase order (Leader and Follower
share a position, being alternatives of the same step). -/
def FullStateMachine.phaseIndex : FullStateMachine → Nat
  | .DiscoverNodes => 0
  | .ConnectNodes _ => 1
  | .Consensus _ => 2
  | .Leader _ => 3
  | .Follower _ => 3
  | .Terminate => 4

/-- `internally_driven_executor` from `src/internal_enum.rs`, generic over
the trait operations, fuelled: `none` means the fuel ran out before the
loop finished. -/
def internally_driven_executor {T ε : Type}
    (execute : T → Except ε T) (is_terminal_state : T → Bool) :
    Nat → T → Option (Except ε Unit)
  | 0, s => if is_terminal_state s then some (.ok ()) else none
  | n + 1, s =>
      if is_terminal_state s then some (.ok ())
      else
        match execute s with
        | .error e => some (.error e)
        | .ok s1 => internally_driven_executor execute is_terminal_state n s1

/-- Number of `execute` calls the enum executor performs before reaching a
terminal state (fuelled; `none` on fuel exhaustion or error). -/
def enumSteps : Nat → FullStateMachine → Option Nat
  | 0, s => if s.is_terminal_state then some 0 else none
  | n + 1, s =>
      if s.is_terminal_state then some 0
      else
        match s.execute with
        | .error _ => none
        | .ok s1 => (enumSteps n s1).map (· + 1)

/-- Sequence of variants the enum executor holds, initial state included,
ending at the first terminal state or error (fuelled). -/
def enumTrace : Nat → FullStateMachine → List PhaseTag
  | 0, s => [s.tag]
  | n + 1, s =>
      if s.is_terminal_state then [s.tag]
      else
        match s.execute with
        | .error _ => [s.tag]
        | .ok s1 => s.tag :: enumTrace n s1

end InternalEnum

namespace DynTrait

/-- The state types of `src/dyn_trait.rs` that implement the `State`
capability trait.  The trait is an open set in Rust; this inductive
enumerates exactly the implementors that exist in the repository, each
constructor holding its struct fields.  There is no `Terminate` variant:
the engine is terminal by omission (`execute` returning `None`). -/
inductive DynState where
  | DiscoverNodes
  | ConnectNodes (nodes : List IpAddr)
  | Consensus (connections : List NodeConnection)
  | Leader (connections : List NodeConnection)
  | Follower (connections : List NodeConnection)
deriving DecidableEq, Repr

/-- `State::execute` of each implementor in `src/dyn_trait.rs` (lines
37-118): consume the state, produce `Ok(Some(next))` or `Ok(None)` at the
end of the workflow.  `Consensus` hardcodes `consensus_result = true`. -/
def DynState.execute : DynState → Except EngineError (Option DynState)
  | .DiscoverNodes =>
      let nodes := get_service_nodes
      .ok (some (.ConnectNodes nodes))
  | .ConnectNodes nodes =>
      let connections := connect_to_nodes nodes
      .ok (some (.Consensus connections))
  | .Consensus connections =>
      let consensus_result := true
      if consensus_result then .ok (some (.Leader connections))
      else .ok (some (.Follower connections))
  | .Leader _ => .ok none
  | .Follower _ => .ok none

/-- `executor` from `src/dyn_trait.rs` (lines 16-24): loop while a state is
present, replacing it with the result of its `execute`; fuelled, `none`
meaning fuel exhaustion. -/
def executor : Nat → Option DynState → Option (Except EngineError Unit)
  | _, none => some (.ok ())
  | 0, some _ => none
  | n + 1, some s =>
      match s.execute with
      | .error e => some (.error e)
      | .ok next => executor n next

/-- Number of `execute` calls the dynamic-dispatch executor performs before
the held state becomes empty (fuelled). -/
def dynSteps : Nat → Option DynState → Option Nat
  | _, none => some 0
  | 0, some _ => none
  | n + 1, some s =>
      match s.execute with
      | .error _ => none
      | .ok next => (dynSteps n next).map (· + 1)

/-- Tag of a dynamic state, for traces. -/
def DynState.tag : DynState → PhaseTag
  | .DiscoverNodes => .DiscoverNodes
  | .ConnectNodes _ => .ConnectNodes
  | .Consensus _ => .Consensus
  | .Leader _ => .Leader
  | .Follower _ => .Follower

/-- Sequence of live states the dynamic-dispatch executor holds, ending
when the held state becomes empty (fuelled). -/
def dynTrace : Nat → Option DynState → List PhaseTag
  | _, none => []
  | 0, some s => [s.tag]
  | n + 1, some s =>
      match s.execute with
      | .error _ => [s.tag]
      | .ok next => s.tag :: dynTrace n next

end DynTrait

namespace ComposeTrait

/-- A value implementing the `State` capability of `src/compose_trait.rs`:
`execute` consumes self and produces a typed output or fails.  Because
`execute` takes self by value and is run once, a stage is characterised by
its execution outcome; the `List PhaseTag` component records which concrete
stages actually ran (the side-effect log of the collaborator calls), so
that execution order and short-circuiting are observable. -/
structure State (ε α : Type) where
  run : List PhaseTag × Except ε α

/-- `StateComposer::and_then` with the `State` impl for `AndThen`
(`src/compose_trait.rs`, lines 25-65): execute `previous`; on failure
propagate it unchanged without touching `map_fn`; on success apply
`map_fn` to the output to construct the next stage, then execute it. -/
def and_then {ε α β : Type} (previous : State ε α)
    (map_fn : α → State ε β) : State ε β :=
  ⟨match previous.run with
    | (log, .error e) => (log, .error e)
    | (log, .ok o) =>
        let next_task := map_fn o
        (log ++ next_task.run.1, next_task.run.2)⟩

/-- `DiscoverNodes` stage of `src/compose_trait.rs`: output the discovered
addresses. -/
def DiscoverNodes : State EngineError (List IpAddr) :=
  ⟨([PhaseTag.DiscoverNodes], .ok get_service_nodes)⟩

/-- `ConnectNodes::new` then its `execute` (`src/compose_trait.rs`). -/
def ConnectNodes.new (nodes : List IpAddr) :
    State EngineError (List NodeConnection) :=
  ⟨([PhaseTag.ConnectNodes], .ok (connect_to_nodes nodes))⟩

/-- `Consensus::new` then its `execute` (`src/compose_trait.rs`): always
decides `true` and passes the connections on. -/
def Consensus.new (connections : List NodeConnection) :
    State EngineError (Bool × List NodeConnection) :=
  ⟨([PhaseTag.Consensus], .ok (true, connections))⟩

/-- `Leader::new` then its `execute` (`src/compose_trait.rs`). -/
def Leader.new (_connections : List NodeConnection) :
    State EngineError Unit :=
  ⟨([PhaseTag.Leader], .ok ())⟩

/-- `Follower::new` then its `execute` (`src/compose_trait.rs`). -/
def Follower.new (_connections : List NodeConnection) :
    State EngineError Unit :=
  ⟨([PhaseTag.Follower], .ok ())⟩

/-- `LeaderOrFollower::new` then its `execute` (`src/compose_trait.rs`):
dispatch to the `Leader` or `Follower` stage on the decision bit. -/
def LeaderOrFollower.new (is_leader : Bool)
    (connections : List NodeConnection) : State EngineError Unit :=
  ⟨if is_leader then (Leader.new connections).run
   else (Follower.new connections).run⟩

/-- `run_full_state_machine` from `src/compose_trait.rs` (lines 6-13): the
statically composed pipeline. -/
def run_full_state_machine : State EngineError Unit :=
  and_then
    (and_then
      (and_then DiscoverNodes ConnectNodes.new)
      Consensus.new)
    (fun p => LeaderOrFollower.new p.1 p.2)

end ComposeTrait

namespace ExternalEnum

/-- `ExternalEvent` from `src/external_enum.rs` (line 41): an enum with no
variants, hence uninhabited. -/
inductive ExternalEvent : Type

/-- `FullStateMachine` from `src/external_enum.rs`: each variant holds the
fields of its phase struct (these structs carry extra mutable fields filled
in by events). -/
inductive FullStateMachine where
  | DiscoverNodes (nodes : List IpAddr)
  | ConnectNodes (nodes : List IpAddr) (connections : List NodeConnection)
  | Consensus (connections : List NodeConnection) (is_leader : Bool)
  | Leader (connections : List NodeConnection)
  | Follower (connections : List NodeConnection)
  | Terminate
deriving DecidableEq, Repr

/-- `ExternallyDrivenTransition::execute` for `FullStateMachine`
(`src/external_enum.rs`, lines 46-55): apply one event by mutating the
current phase in place (modelled as returning the updated value).  The
`Terminate` arm is `unreachable!()`, embedded as a `LogicError` failure. -/
def FullStateMachine.execute :
    FullStateMachine → ExternalEvent → Except EngineError FullStateMachine
  | .DiscoverNodes _, _ => .ok (.DiscoverNodes get_service_nodes)
  | .ConnectNodes nodes _, _ =>
      .ok (.ConnectNodes nodes (connect_to_nodes nodes))
  | .Consensus connections _, _ => .ok (.Consensus connections true)
  | .Leader connections, _ => .ok (.Leader connections)
  | .Follower connections, _ => .ok (.Follower connections)
  | .Terminate, _ => .error .LogicError

/-- `is_terminal_state` for the event-driven `FullStateMachine`. -/
def FullStateMachine.is_terminal_state : FullStateMachine → Bool
  | .Terminate => true
  | _ => false

/-- `transition` for the event-driven `FullStateMachine`
(`src/external_enum.rs`, lines 61-80): pure construction of the next phase
(`ConnectNodes::new` starts with no connections, `Consensus::new` with
`is_leader = false`).  The `Terminate` arm is `unreachable!()`, embedded as
a `LogicError` failure. -/
def FullStateMachine.transition :
    FullStateMachine → Except EngineError FullStateMachine
  | .DiscoverNodes nodes => .ok (.ConnectNodes nodes [])
  | .ConnectNodes _ connections => .ok (.Consensus connections false)
  | .Consensus connections is_leader =>
      if is_leader then .ok (.Leader connections)
      else .ok (.Follower connections)
  | .Leader _ => .ok .Terminate
  | .Follower _ => .ok .Terminate
  | .Terminate => .error .LogicError

/-- The `ExternallyDrivenTransition` trait of `src/external_enum.rs` as a
record of its three operations (`transition` returns `Except` so that the
`unreachable!()` panic of the concrete machine stays observable). -/
structure ExternallyDrivenTransition (T E ε : Type) where
  execute : T → E → Except ε T
  is_terminal_state : T → Bool
  transition : T → Except ε T

/-- `externally_driven_executor` from `src/external_enum.rs` (lines 13-29):
for each event received, apply it, transition, and stop on a terminal
state; the channel closing (here: the event list running out) ends the
loop normally with success. -/
def externally_driven_executor {T E ε : Type}
    (inst : ExternallyDrivenTransition T E ε) :
    T → List E → Except ε Unit
  | _, [] => .ok ()
  | s, e :: rest =>
      match inst.execute s e with
      | .error err => .error err
      | .ok s1 =>
          match inst.transition s1 with
          | .error err => .error err
          | .ok s2 =>
              if inst.is_terminal_state s2 then .ok ()
              else externally_driven_executor inst s2 rest

/-- The trait instance for the concrete event-driven `FullStateMachine`. -/
def fsmInstance :
    ExternallyDrivenTransition FullStateMachine ExternalEvent EngineError :=
  { execute := FullStateMachine.execute
    is_terminal_state := FullStateMachine.is_terminal_state
    transition := FullStateMachine.transition }

/-- Tag of the live variant of the event-driven machine, for traces. -/
def FullStateMachine.tag : FullStateMachine → PhaseTag
  | .DiscoverNodes _ => .DiscoverNodes
  | .ConnectNodes _ _ => .ConnectNodes
  | .Consensus _ _ => .Consensus
  | .Leader _ => .Leader
  | .Follower _ => .Follower
  | .Terminate => .Terminate

/-- Sequence of live states the event-driven executor holds, initial state
included, following `externally_driven_executor` step for step. -/
def extTrace : FullStateMachine → List ExternalEvent → List PhaseTag
  | s, [] => [s.tag]
  | s, e :: rest =>
      match s.execute e with
      | .error _ => [s.tag]
      | .ok s1 =>
          match s1.transition with
          | .error _ => [s.tag]
          | .ok s2 =>
              if s2.is_terminal_state then [s.tag]
              else s.tag :: extTrace s2 rest

end ExternalEnum

/-- Simulation map from the closed enum machine to the dynamic-dispatch
engine: corresponding live states carry the same data, and `Terminate`
corresponds to the empty held state (the dynamic engine is terminal by
omission). -/
def toDyn : InternalEnum.FullStateMachine → Option DynTrait.DynState
  | .DiscoverNodes => some .DiscoverNodes
  | .ConnectNodes nodes => some (.ConnectNodes nodes)
  | .Consensus connections => some (.Consensus connections)
  | .Leader connections => some (.Leader connections)
  | .Follower connections => some (.Follower connections)
  | .Terminate => none

/-- A discovery stage whose collaborator fails, used to exercise the
short-circuit path of the composer. -/
def failing_discovery : ComposeTrait.State EngineError (List IpAddr) :=
  ⟨([PhaseTag.DiscoverNodes], .error .CollaboratorError)⟩

/-- A trait instance whose event application always fails, used to exercise
the error-propagation path of the event-driven executor. -/
def natInstance : ExternalEnum.ExternallyDrivenTransition Nat Nat Nat :=
  { execute := fun _ _ => .error 7
    is_terminal_state := fun _ => false
    transition := fun s => .ok s }

lemma connect_to_nodes_eq_map (nodes : List IpAddr) :
    connect_to_nodes nodes = nodes.map NodeConnection.connect := by
  induction nodes with
  | nil => rfl
  | cons node rest ih => simp [connect_to_nodes, ih]

lemma enumSteps_terminate (n : Nat) :
    InternalEnum.enumSteps n .Terminate = some 0 := by
  cases n <;> rfl

lemma dynSteps_none (n : Nat) : DynTrait.dynSteps n none = some 0 := by
  cases n <;> rfl

/-- C1 (counterexample): started in the initial DiscoverNodes phase with
the channel closed (the only possible event stream, the event type being
uninhabited), the event-driven strategy terminates having visited only
DiscoverNodes, while the enum strategy visits the full
DiscoverNodes-ConnectNodes-Consensus-Leader-Terminate sequence — so not all
strategies visit the same ordered phase sequence. -/
theorem claim1_counterexample :
    InternalEnum.enumTrace 10 .DiscoverNodes
      = [PhaseTag.DiscoverNodes, .ConnectNodes, .Consensus, .Leader,
         .Terminate]
    ∧ ExternalEnum.extTrace (.DiscoverNodes []) [] = [PhaseTag.DiscoverNodes]
    ∧ ExternalEnum.externally_driven_executor ExternalEnum.fsmInstance
        (.DiscoverNodes []) [] = .ok ()
    ∧ ExternalEnum.extTrace (.DiscoverNodes []) []
        ≠ InternalEnum.enumTrace 10 .DiscoverNodes :=
  ⟨by decide, rfl, rfl, by decide⟩

/-- C1 (amended): the three computationally driven strategies — enum,
dynamic dispatch, composed chain — each visit the live phases in exactly
the order DiscoverNodes, ConnectNodes, Consensus, Leader, then the terminal
marker (Terminate, the empty next-state, or the end of the pipeline), with
no phase skipped, revisited, or branched back to, and all three terminate
successfully; the event-driven strategy, whose event type is uninhabited,
visits only the initial DiscoverNodes phase and then shuts down normally
with success. -/
theorem claim1_amended_phase_order :
    InternalEnum.enumTrace 10 .DiscoverNodes
      = [PhaseTag.DiscoverNodes, .ConnectNodes, .Consensus, .Leader,
         .Terminate]
    ∧ InternalEnum.internally_driven_executor
        InternalEnum.FullStateMachine.execute
        InternalEnum.FullStateMachine.is_terminal_state 10 .DiscoverNodes
        = some (.ok ())
    ∧ DynTrait.dynTrace 10 (some .DiscoverNodes)
      = [PhaseTag.DiscoverNodes, .ConnectNodes, .Consensus, .Leader]
    ∧ DynTrait.executor 10 (some .DiscoverNodes) = some (.ok ())
    ∧ ComposeTrait.run_full_state_machine.run
      = ([PhaseTag.DiscoverNodes, .ConnectNodes, .Consensus, .Leader],
         .ok ())
    ∧ (∀ evs, ExternalEnum.extTrace (.DiscoverNodes []) evs
        = [PhaseTag.DiscoverNodes])
    ∧ (∀ evs, ExternalEnum.externally_driven_executor ExternalEnum.fsmInstance
        (.DiscoverNodes []) evs = .ok ()) := by
  refine ⟨by decide, rfl, by decide, rfl, rfl,
    fun evs => ?_, fun evs => ?_⟩
  · cases evs with
    | nil => rfl
    | cons e _ => exact nomatch e
  · cases evs with
    | nil => rfl
    | cons e _ => exact nomatch e

/-- C2: invoking the enum engine transition/execute operation on the
Terminate variant signals a LogicError (the embedded `unreachable!()`
panic), in both the internally driven and the event-driven enum engine; and
for every one of the five non-terminal variants, execute is defined and
returns a variant exactly one step further in the fixed phase order. -/
theorem claim2_transition_totality :
    InternalEnum.FullStateMachine.execute .Terminate = .error .LogicError
    ∧ ExternalEnum.FullStateMachine.transition .Terminate
        = .error .LogicError
    ∧ ∀ s : InternalEnum.FullStateMachine, s.is_terminal_state = false →
        ∃ s1, s.execute = .ok s1 ∧ s1.phaseIndex = s.phaseIndex + 1 := by
  refine ⟨rfl, rfl, fun s h => ?_⟩
  cases s with
  | DiscoverNodes => exact ⟨_, rfl, rfl⟩
  | ConnectNodes nodes => exact ⟨_, rfl, rfl⟩
  | Consensus connections => exact ⟨_, rfl, rfl⟩
  | Leader connections => exact ⟨_, rfl, rfl⟩
  | Follower connections => exact ⟨_, rfl, rfl⟩
  | Terminate => exact absurd h (by simp [InternalEnum.FullStateMachine.is_terminal_state])

/-- Witness for C2 at the concrete non-terminal variant DiscoverNodes. -/
theorem claim2_witness :
    InternalEnum.FullStateMachine.is_terminal_state .DiscoverNodes = false
    ∧ ∃ s1, InternalEnum.FullStateMachine.execute .DiscoverNodes = .ok s1
        ∧ s1.phaseIndex
            = InternalEnum.FullStateMachine.phaseIndex .DiscoverNodes + 1 :=
  ⟨rfl, claim2_transition_totality.2.2 .DiscoverNodes rfl⟩

/-- C3: in the composed chain, if the first stage of an `and_then` fails,
the composite fails with that same error unchanged, the mapping function is
never applied (the composite does not depend on it), and no later stage
runs (the side-effect log is exactly the first stage's log); if the first
stage succeeds with output o, the next stage is built as `map_fn o` and
executed. -/
theorem claim3_and_then_short_circuit {ε α β : Type}
    (previous : ComposeTrait.State ε α)
    (f g : α → ComposeTrait.State ε β) :
    (∀ log e, previous.run = (log, .error e) →
        (ComposeTrait.and_then previous f).run = (log, .error e)
        ∧ ComposeTrait.and_then previous f = ComposeTrait.and_then previous g)
    ∧ (∀ log o, previous.run = (log, .ok o) →
        (ComposeTrait.and_then previous f).run
          = (log ++ (f o).run.1, (f o).run.2)) := by
  constructor
  · intro log e h
    constructor
    · simp [ComposeTrait.and_then, h]
    · simp [ComposeTrait.and_then, h]
  · intro log o h
    simp [ComposeTrait.and_then, h]

/-- Witness for C3: a failing discovery stage short-circuits the pipeline
(the connect stage never runs and the error is surfaced), and a succeeding
discovery stage feeds its output to the connect stage. -/
theorem claim3_witness :
    ((ComposeTrait.and_then failing_discovery ComposeTrait.ConnectNodes.new).run
        = ([PhaseTag.DiscoverNodes], .error .CollaboratorError))
    ∧ ComposeTrait.and_then failing_discovery ComposeTrait.ConnectNodes.new
        = ComposeTrait.and_then failing_discovery
            (fun _ => ComposeTrait.ConnectNodes.new [])
    ∧ (ComposeTrait.and_then ComposeTrait.DiscoverNodes
          ComposeTrait.ConnectNodes.new).run
        = ([PhaseTag.DiscoverNodes]
            ++ (ComposeTrait.ConnectNodes.new get_service_nodes).run.1,
           (ComposeTrait.ConnectNodes.new get_service_nodes).run.2) :=
  ⟨((claim3_and_then_short_circuit failing_discovery
      ComposeTrait.ConnectNodes.new
      (fun _ => ComposeTrait.ConnectNodes.new [])).1
      [PhaseTag.DiscoverNodes] .CollaboratorError rfl).1,
   ((claim3_and_then_short_circuit failing_discovery
      ComposeTrait.ConnectNodes.new
      (fun _ => ComposeTrait.ConnectNodes.new [])).1
      [PhaseTag.DiscoverNodes] .CollaboratorError rfl).2,
   (claim3_and_then_short_circuit ComposeTrait.DiscoverNodes
      ComposeTrait.ConnectNodes.new ComposeTrait.ConnectNodes.new).2
      [PhaseTag.DiscoverNodes] get_service_nodes rfl⟩

/-- C4: the dynamic-dispatch executor reaches its empty next-state after
exactly as many execute steps as the enum executor needs to reach its
Terminate variant — in general, along the simulation map `toDyn`, and in
particular on the initial DiscoverNodes state, where both take 4 steps and
both return success. -/
theorem claim4_dyn_enum_step_equivalence :
    (∀ (n : Nat) (s : InternalEnum.FullStateMachine),
        DynTrait.dynSteps n (toDyn s) = InternalEnum.enumSteps n s)
    ∧ InternalEnum.enumSteps 10 .DiscoverNodes = some 4
    ∧ DynTrait.dynSteps 10 (some .DiscoverNodes) = some 4
    ∧ InternalEnum.internally_driven_executor
        InternalEnum.FullStateMachine.execute
        InternalEnum.FullStateMachine.is_terminal_state 10 .DiscoverNodes
        = some (.ok ())
    ∧ DynTrait.executor 10 (some .DiscoverNodes) = some (.ok ()) := by
  refine ⟨?_, by decide, by decide, rfl, rfl⟩
  intro n
  induction n with
  | zero => intro s; cases s <;> rfl
  | succ n ih =>
    intro s
    cases s with
    | DiscoverNodes =>
      have h := ih (.ConnectNodes get_service_nodes)
      simp [toDyn] at h
      simp [toDyn, DynTrait.dynSteps, InternalEnum.enumSteps,
        DynTrait.DynState.execute, InternalEnum.FullStateMachine.execute,
        InternalEnum.FullStateMachine.is_terminal_state,
        InternalEnum.DiscoverNodes.execute, h]
    | ConnectNodes nodes =>
      have h := ih (.Consensus (connect_to_nodes nodes))
      simp [toDyn] at h
      simp [toDyn, DynTrait.dynSteps, InternalEnum.enumSteps,
        DynTrait.DynState.execute, InternalEnum.FullStateMachine.execute,
        InternalEnum.FullStateMachine.is_terminal_state,
        InternalEnum.ConnectNodes.execute, h]
    | Consensus connections =>
      have h := ih (.Leader connections)
      simp [toDyn] at h
      simp [toDyn, DynTrait.dynSteps, InternalEnum.enumSteps,
        DynTrait.DynState.execute, InternalEnum.FullStateMachine.execute,
        InternalEnum.FullStateMachine.is_terminal_state,
        InternalEnum.Consensus.execute, h]
    | Leader connections =>
      simp [toDyn, DynTrait.dynSteps, InternalEnum.enumSteps,
        DynTrait.DynState.execute, InternalEnum.FullStateMachine.execute,
        InternalEnum.FullStateMachine.is_terminal_state,
        enumSteps_terminate, dynSteps_none]
    | Follower connections =>
      simp [toDyn, DynTrait.dynSteps, InternalEnum.enumSteps,
        DynTrait.DynState.execute, InternalEnum.FullStateMachine.execute,
        InternalEnum.FullStateMachine.is_terminal_state,
        enumSteps_terminate, dynSteps_none]
    | Terminate =>
      simp [toDyn, dynSteps_none, InternalEnum.enumSteps,
        InternalEnum.FullStateMachine.is_terminal_state]

/-- C5: for any trait instance, if the event channel is closed (no more
events) before a terminal state is reached, the event-driven executor ends
its loop returning success, with no further event applied — a normal
shutdown, not a failure; by contrast, an error returned from applying an
event is propagated as the executor error result. -/
theorem claim5_channel_close_shutdown {T E ε : Type}
    (inst : ExternalEnum.ExternallyDrivenTransition T E ε) :
    (∀ s : T,
        ExternalEnum.externally_driven_executor inst s [] = .ok ())
    ∧ (∀ (s : T) (e : E) (rest : List E) (err : ε),
        inst.execute s e = .error err →
        ExternalEnum.externally_driven_executor inst s (e :: rest)
          = .error err) := by
  constructor
  · intro s; rfl
  · intro s e rest err h
    simp [ExternalEnum.externally_driven_executor, h]

/-- Witness for C5 on a concrete instance whose event application always
fails: the closed channel shuts the executor down with success, and a
failing event application surfaces as the executor error. -/
theorem claim5_witness :
    ExternalEnum.externally_driven_executor natInstance 0 [] = .ok ()
    ∧ (natInstance.execute 0 1 = .error 7
        ∧ ExternalEnum.externally_driven_executor natInstance 0 [1, 2]
            = .error 7) :=
  ⟨(claim5_channel_close_shutdown natInstance).1 0,
   rfl, (claim5_channel_close_shutdown natInstance).2 0 1 [2] 7 rfl⟩

/-- C6: `connect_to_nodes` returns exactly one connection per input
address, preserving order: the output has the same length as the input and
its i-th element is built from the i-th input address.  The operation is a
total function, so it never fails. -/
theorem claim6_connect_one_per_address (nodes : List IpAddr) :
    (connect_to_nodes nodes).length = nodes.length
    ∧ ∀ i : Nat,
        (connect_to_nodes nodes)[i]? = (nodes[i]?).map NodeConnection.connect := by
  rw [connect_to_nodes_eq_map]
  refine ⟨List.length_map _ _, fun i => ?_⟩
  simp

/-- C7: with zero discovered peers, `connect_to_nodes` is invoked on the
empty sequence and returns the empty connection sequence, and the enum
engine still advances DiscoverNodes to ConnectNodes to Consensus (and on to
Leader) without error — the empty peer set is not special-cased. -/
theorem claim7_empty_peer_passthrough :
    connect_to_nodes [] = []
    ∧ InternalEnum.FullStateMachine.execute .DiscoverNodes
        = .ok (.ConnectNodes [])
    ∧ InternalEnum.FullStateMachine.execute (.ConnectNodes [])
        = .ok (.Consensus [])
    ∧ InternalEnum.FullStateMachine.execute (.Consensus [])
        = .ok (.Leader []) :=
  ⟨rfl, rfl, rfl, rfl⟩

/-- C8: the consensus step returns its leadership decision together with
exactly the connection list it held, unchanged, and the enum engine builds
the following Leader phase from that same list. -/
theorem claim8_consensus_frame (connections : List NodeConnection) :
    InternalEnum.Consensus.execute connections = (true, connections)
    ∧ InternalEnum.FullStateMachine.execute (.Consensus connections)
        = .ok (.Leader connections) :=
  ⟨rfl, rfl⟩

/-- C9: `ExternalEvent` is uninhabited, so no event value or nonempty event
list can exist; for every initial state the event-driven executor returns
`Ok(())` having applied no event, and its run visits only the initial
phase. -/
theorem claim9_uninhabited_events :
    (∀ _e : ExternalEnum.ExternalEvent, False)
    ∧ (∀ evs : List ExternalEnum.ExternalEvent, evs = [])
    ∧ (∀ (s : ExternalEnum.FullStateMachine)
         (evs : List ExternalEnum.ExternalEvent),
         ExternalEnum.externally_driven_executor ExternalEnum.fsmInstance s evs
           = .ok ())
    ∧ (∀ (s : ExternalEnum.FullStateMachine)
         (evs : List ExternalEnum.ExternalEvent),
         ExternalEnum.extTrace s evs = [s.tag]) := by
  refine ⟨(fun e => nomatch e), fun evs => ?_, fun s evs => ?_, fun s evs => ?_⟩
  · cases evs with
    | nil => rfl
    | cons e _ => exact nomatch e
  · cases evs with
    | nil => rfl
    | cons e _ => exact nomatch e
  · cases evs with
    | nil => rfl
    | cons e _ => exact nomatch e

/-- C10: the consensus stub decides leadership `true` in every strategy, so
no complete run from the initial DiscoverNodes phase with the provided stub
collaborators ever visits a Follower phase. -/
theorem claim10_no_follower :
    (∀ connections, InternalEnum.Consensus.execute connections
        = (true, connections))
    ∧ (∀ connections, DynTrait.DynState.execute (.Consensus connections)
        = .ok (some (.Leader connections)))
    ∧ (∀ connections, (ComposeTrait.Consensus.new connections).run
        = ([PhaseTag.Consensus], .ok (true, connections)))
    ∧ (∀ connections (b : Bool) (e : ExternalEnum.ExternalEvent),
        ExternalEnum.FullStateMachine.execute (.Consensus connections b) e
          = .ok (.Consensus connections true))
    ∧ PhaseTag.Follower ∉ InternalEnum.enumTrace 10 .DiscoverNodes
    ∧ PhaseTag.Follower ∉ DynTrait.dynTrace 10 (some .DiscoverNodes)
    ∧ PhaseTag.Follower ∉ ComposeTrait.run_full_state_machine.run.1 := by
  exact ⟨fun _ => rfl, fun _ => rfl, fun _ => rfl, fun _ _ _ => rfl,
    by decide, by decide, by decide⟩
